import Mathlib

/-!
# Verification of bitname-cli's transaction builders, verifier and index

A shallow embedding of the repository's core: the escrow redeem-script
builder (`makeEncumberScript`), the lock- and unlock-transaction builders
(`genLockTx`, `genUnlockTx`) from src/lib/net.ts, the lock-transaction
verifier (`verifyLockTX`, `isValidOP_RETURN`, `isURISafe`) from
src/lib/verify.ts, and the transaction-history index (`TXList`).

Modelling conventions:
* Bytes are `Nat` (each < 256 where the code produces real bytes); byte
  buffers are `List Nat`; satoshi values are `Int` (JS numbers used as
  integers).
* Scripts are lists of opcodes (`ScriptOp`); the bcoin script primitives
  the code calls (`isNulldata`, `isPubkeyhash`, `isScripthash`,
  `fromNulldata`, address derivation, serialization) are modelled as
  functions over that list, following the standard script templates bcoin
  implements.  A null-data script is OP_RETURN followed by data pushes or
  small-integer opcodes (OP_0..OP_16, which carry no pushed `data`).
* External cryptographic primitives (secp256k1 public-key validation,
  ECDSA signing, transaction hashing) and the virtual-size estimator are
  taken as explicit function parameters: the code treats them as trusted
  library calls and the claims quantify over them.
* JavaScript out-of-range indexing followed by a property access throws;
  fallible paths return `Option`, `none` standing for a thrown error.
-/

namespace Bitname

/-- Opcodes and pushes used by the scripts this program builds and
inspects.  `pushData` is a data push (bcoin `pushData`), `pushInt n` a
small-integer push (bcoin `pushInt`). -/
inductive ScriptOp where
  | opIf
  | opElse
  | opEndif
  | opChecksig
  | opCSV
  | opDrop
  | opReturn
  | opDup
  | opHash160
  | opEqualverify
  | opEqual
  | pushData (bs : List Nat)
  | pushInt (n : Nat)
  deriving Repr, DecidableEq

/-- The `.data` field of a stack operation: the pushed bytes of a data
push, and `none` (JS `null`/`undefined`) otherwise. -/
def ScriptOp.data : ScriptOp → Option (List Nat)
  | .pushData bs => some bs
  | _ => none

/-- Serialization of one data push: direct length byte up to 75 bytes,
then OP_PUSHDATA1 / OP_PUSHDATA2 forms (bcoin's minimal push writer). -/
def pushRaw (bs : List Nat) : List Nat :=
  if bs.length ≤ 75 then bs.length :: bs
  else if bs.length ≤ 255 then 76 :: bs.length :: bs
  else 77 :: bs.length % 256 :: bs.length / 256 :: bs

/-- Byte serialization of one opcode (bcoin opcode numbers). -/
def ScriptOp.toRaw : ScriptOp → List Nat
  | .opIf => [99]
  | .opElse => [103]
  | .opEndif => [104]
  | .opChecksig => [172]
  | .opCSV => [178]
  | .opDrop => [117]
  | .opReturn => [106]
  | .opDup => [118]
  | .opHash160 => [169]
  | .opEqualverify => [136]
  | .opEqual => [135]
  | .pushData bs => pushRaw bs
  | .pushInt n => [80 + n]

/-- `Script.toRaw`: byte serialization of a compiled script. -/
def scriptToRaw (s : List ScriptOp) : List Nat :=
  (s.map ScriptOp.toRaw).flatten

/-- An opcode bcoin's `isNulldata` allows after the OP_RETURN: a data
push, or a small-integer opcode OP_0..OP_16 (whose `data` is null). -/
def isNulldataOp : ScriptOp → Bool
  | .pushData _ => true
  | .pushInt n => n ≤ 16
  | _ => false

/-- bcoin `Script.isNulldata`: an OP_RETURN followed only by data pushes
or small-integer opcodes. -/
def isNulldataScript : List ScriptOp → Bool
  | .opReturn :: rest => rest.all isNulldataOp
  | _ => false

/-- bcoin `Script.isPubkeyhash`: the standard P2PKH template. -/
def isPubkeyhashScript : List ScriptOp → Bool
  | [.opDup, .opHash160, .pushData _, .opEqualverify, .opChecksig] => true
  | _ => false

/-- bcoin `Script.isScripthash`: the standard P2SH template. -/
def isScripthashScript : List ScriptOp → Bool
  | [.opHash160, .pushData _, .opEqual] => true
  | _ => false

/-- An address: a pay-to-pubkey-hash or pay-to-script-hash hash. -/
inductive Addr where
  | p2pkh (h : List Nat)
  | p2sh (h : List Nat)
  deriving Repr, DecidableEq

/-- The output script paying to an address (bcoin `Script.fromAddress`). -/
def addrScript : Addr → List ScriptOp
  | .p2pkh h => [.opDup, .opHash160, .pushData h, .opEqualverify, .opChecksig]
  | .p2sh h => [.opHash160, .pushData h, .opEqual]

/-- bcoin `Output.getAddress`: recover the address from a standard output
script, `none` (JS `null`) for non-standard scripts. -/
def getAddress : List ScriptOp → Option Addr
  | [.opDup, .opHash160, .pushData h, .opEqualverify, .opChecksig] => some (.p2pkh h)
  | [.opHash160, .pushData h, .opEqual] => some (.p2sh h)
  | _ => none

/-- A transaction output: value in satoshis and its script. -/
structure Output where
  value : Int
  script : List ScriptOp
  deriving Repr, DecidableEq

/-- A previous-output reference: transaction id bytes and output index. -/
structure OutPoint where
  txid : List Nat
  index : Nat
  deriving Repr, DecidableEq

/-- A transaction input: its prevout and its input script. -/
structure TxInput where
  prevout : OutPoint
  script : List ScriptOp
  deriving Repr, DecidableEq

/-- A transaction. -/
structure Tx where
  version : Nat
  inputs : List TxInput
  outputs : List Output
  deriving Repr, DecidableEq

/-! ### src/lib/verify.ts -/

/-- One character of `isURISafe`'s regular expression
`^[a-zA-Z0-9_\-\.\~]*$` (character codes; note the hyphen, 45, is in the
class). -/
def isURISafeChar (c : Nat) : Bool :=
  (97 ≤ c && c ≤ 122) || (65 ≤ c && c ≤ 90) || (48 ≤ c && c ≤ 57) ||
    c == 95 || c == 45 || c == 46 || c == 126

/-- `isURISafe` from src/lib/verify.ts: every character of the string
matches the class of `isURISafeChar`. -/
def isURISafe (s : List Nat) : Bool :=
  s.all isURISafeChar

/-- Node's `buffer.toString('ascii')`: each byte masked to 7 bits. -/
def decodeAscii (bs : List Nat) : List Nat :=
  bs.map (· % 128)

/-- `isValidOP_RETURN` from src/lib/verify.ts: a null-data script, zero
value, and exactly two opcodes. -/
def isValidOP_RETURN (output : Output) : Bool :=
  isNulldataScript output.script && output.value == 0 &&
    output.script.length == 2

/-- The output-2 check `tx.outputs[2].getAddress() !== serviceAddr`:
JavaScript strict inequality compares the two Address *objects* by
reference, and `getAddress()` constructs a fresh Address object on every
call (it is never the caller's `serviceAddr` object, whatever the
addresses' values), so the comparison is always true.  The arguments are
kept to mirror the source expression. -/
def addrRefNotEqual (_ : Option Addr) (_ : Addr) : Bool :=
  true

/-- `verifyLockTX` from src/lib/verify.ts.  `pkVerify` is the external
`crypto.secp256k1.publicKeyVerify`.  `none` models a thrown JS error
(out-of-range indexing followed by a property access, or a `null` fed to
the public-key check); the output-2 address comparison is the
reference comparison `addrRefNotEqual`, which always fails the
transaction. -/
def verifyLockTX (pkVerify : List Nat → Bool) (tx : Tx) (serviceAddr : Addr) :
    Option Bool :=
  if tx.outputs.length ≥ 4 then some false else
  match tx.outputs[0]? with
  | none => none
  | some o0 =>
    if !isValidOP_RETURN o0 then some false else
    match o0.script[1]? with
    | none => none
    | some op0 =>
      match op0.data with
      | none => none
      | some pubKey =>
        if !pkVerify pubKey then some false else
        match tx.outputs[1]? with
        | none => none
        | some o1 =>
          if !isValidOP_RETURN o1 then some false else
          match o1.script[1]? with
          | none => none
          | some op1 =>
            match op1.data with
            | none => none
            | some name =>
              if name.length > 64 then some false else
              if !isURISafe (decodeAscii name) then some false else
              match tx.outputs[2]? with
              | none => none
              | some o2 =>
                if !(isPubkeyhashScript o2.script || isScripthashScript o2.script)
                  then some false else
                if addrRefNotEqual (getAddress o2.script) serviceAddr
                  then some false else
                match tx.outputs[3]? with
                | none => none
                | some o3 =>
                  if !isScripthashScript o3.script then some false else
                  some true

/-! ### src/lib/net.ts — escrow script builder -/

/-- `I64(rlocktime).toLE(Buffer)`: the eight little-endian bytes of the
64-bit value. -/
def toLE64 (n : Nat) : List Nat :=
  (List.range 8).map fun i => n / 256 ^ i % 256

/-- The trimming loop of `makeEncumberScript`: `min` starts at
`numBuff.length - 1` and decrements while `min > 1` and `numBuff[min]`
is zero. -/
def trimLoop (buff : List Nat) : Nat → Nat
  | 0 => 0
  | 1 => 1
  | m + 2 => if buff.getD (m + 2) 0 == 0 then trimLoop buff (m + 1) else m + 2

/-- The bytes `makeEncumberScript` pushes before OP_CHECKSEQUENCEVERIFY:
`numBuff.slice(0, min)` with `min` the result of the trimming loop.
Note `slice`'s end bound is exclusive, so the byte at index `min`
itself is dropped. -/
def encodeSequenceNum (rlocktime : Nat) : List Nat :=
  let numBuff := toLE64 (rlocktime % 2 ^ 64)
  numBuff.take (trimLoop numBuff (numBuff.length - 1))

/-- `makeEncumberScript` from src/lib/net.ts: the two-branch escrow
redeem script (owner key / CSV-encumbered service key). -/
def makeEncumberScript (userPubkey servicePubkey : List Nat)
    (rlocktime : Nat) : List ScriptOp :=
  [.opIf,
   .pushData userPubkey, .opChecksig,
   .opElse,
   .pushData (encodeSequenceNum rlocktime), .opCSV, .opDrop,
   .pushData servicePubkey, .opChecksig,
   .opEndif]

/-! ### src/lib/net.ts — lock transaction builder -/

/-- A funding coin: the referenced outpoint and its value. -/
structure Coin where
  txid : List Nat
  index : Nat
  value : Int
  deriving Repr, DecidableEq

/-- `coins.reduce((acc, cur) => acc + cur.value, 0)`. -/
def totalValue (coins : List Coin) : Int :=
  coins.foldl (fun acc cur => acc + cur.value) 0

/-- The four outputs `genLockTx` adds, in order: the change output to
the owner's address, the OP_RETURN carrying the name with value
`opRetVal = 1`, the upfront fee to the service address, and the locked
fee to the P2SH address. -/
def genLockTxOutputs (ringAddr : Addr) (coins : List Coin) (name : List Nat)
    (upfrontFee lockedFee : Int) (serviceAddr p2shAddr : Addr) : List Output :=
  let total := totalValue coins
  let opRetVal : Int := 1
  let changeVal := total - opRetVal - upfrontFee - lockedFee
  [⟨changeVal, addrScript ringAddr⟩,
   ⟨opRetVal, [.opReturn, .pushData name]⟩,
   ⟨upfrontFee, addrScript serviceAddr⟩,
   ⟨lockedFee, addrScript p2shAddr⟩]

/-- `Math.ceil(virtSize / 1000 * feeRate)` on integer inputs. -/
def ceilFeeRate (virtSize feeRate : Nat) : Nat :=
  (virtSize * feeRate + 999) / 1000

/-- bcoin `MTX.subtractFee(fee, index)`: subtract the fee from the chosen
output, failing when that would drive its value negative. -/
def subtractFee (outputs : List Output) (fee : Int) (index : Nat) :
    Option (List Output) :=
  match outputs[index]? with
  | none => none
  | some o =>
    if o.value - fee < 0 then none
    else some (outputs.set index ⟨o.value - fee, o.script⟩)

/-- `genLockTx` from src/lib/net.ts.  `vsize` is the external
`getVirtualSize` estimator; input scripts are produced by the external
signer and are not modelled (the claims here concern the outputs).  The
fee is the estimated virtual size plus 72 bytes per input signature,
scaled by the fee rate, and is subtracted from output 0 (the change). -/
def genLockTx (vsize : Tx → Nat) (ringAddr : Addr) (coins : List Coin)
    (name : List Nat) (upfrontFee lockedFee : Int) (feeRate : Nat)
    (serviceAddr p2shAddr : Addr) : Option Tx :=
  let outs := genLockTxOutputs ringAddr coins name upfrontFee lockedFee
    serviceAddr p2shAddr
  let provisional : Tx :=
    ⟨1, coins.map fun c => ⟨⟨c.txid, c.index⟩, []⟩, outs⟩
  let virtSize := vsize provisional + coins.length * 72
  let fee := ceilFeeRate virtSize feeRate
  match subtractFee outs (fee : Int) 0 with
  | none => none
  | some outs2 => some ⟨1, provisional.inputs, outs2⟩

/-! ### src/lib/net.ts — unlock transaction builder -/

/-- `genUnlockTx` from src/lib/net.ts.  `hashTx` is the external
transaction hash, `sign` the external `MTX.signature` (a function of the
transaction's current outputs, the redeem script, the spent value and
the private key), `vsize` the external `getVirtualSize`.  The `locktime`
argument is accepted but unused, as in the source (its `setSequence`
line is commented out).  `none` models a thrown error: indexing
`lockTx.outputs[3]` out of range, or `subtractFee` driving the sole
output negative. -/
def genUnlockTx (hashTx : Tx → List Nat)
    (sign : List Output → List ScriptOp → Int → List Nat → List Nat)
    (vsize : Tx → Nat) (ringAddr : Addr) (ringPriv : List Nat)
    (lockTx : Tx) (locktime : Nat) (redeemScript : List ScriptOp)
    (feeRate : Nat) : Option Tx :=
  match lockTx.outputs[3]? with
  | none => none
  | some lockedOut =>
    let val := lockedOut.value
    let out1 : Output := ⟨val, addrScript ringAddr⟩
    let sig1 := sign [out1] redeemScript val ringPriv
    let script1 : List ScriptOp :=
      [.pushData sig1, .pushInt 1, .pushData (scriptToRaw redeemScript)]
    let provisional : Tx :=
      ⟨2, [⟨⟨hashTx lockTx, 3⟩, script1⟩], [out1]⟩
    let fee := ceilFeeRate (vsize provisional) feeRate
    match subtractFee [out1] (fee : Int) 0 with
    | none => none
    | some outs2 =>
      let sig2 := sign outs2 redeemScript val ringPriv
      let script2 : List ScriptOp :=
        [.pushData sig2, .pushInt 1, .pushData (scriptToRaw redeemScript)]
      some ⟨2, [⟨⟨hashTx lockTx, 3⟩, script2⟩], outs2⟩

/-! ### TXList -/

/-- Errors of the transaction-history index lookups. -/
inductive TXListErr where
  | unknownTxid (id : String)
  | unknownOutput (index : Nat) (id : String)
  deriving Repr, DecidableEq

/-- Modelled from the spec: the `TXList` class itself (src/lib/TXList.ts)
is not among the provided sources — only its test file is — so the index
is modelled from §4.5 of the spec and the behavior its tests pin down: a
structure mapping each transaction id to its per-output spent flags
(the spec's invariant makes the flag sequence's length the transaction's
output count). -/
structure TXList where
  entries : List (String × List Bool)
  deriving Repr, DecidableEq

/-- Modelled from the spec: `TXList.getOutputSpent(id, index)` returns
the stored boolean spent flag; fails with `UnknownTxid` if the id is
absent, or with `UnknownOutput`, naming the index and the id, if the
index is out of range for that transaction. -/
def TXList.getOutputSpent (l : TXList) (id : String) (index : Nat) :
    Except TXListErr Bool :=
  match l.entries.lookup id with
  | none => .error (.unknownTxid id)
  | some flags =>
    match flags[index]? with
    | none => .error (.unknownOutput index id)
    | some b => .ok b

/-- `subtractFee` on a four-output list at index 0: when it succeeds, it
returns the same list with the fee taken out of output 0. -/
theorem subtractFee_four (o0 o1 o2 o3 : Output) (fee : Int)
    (l2 : List Output) (h : subtractFee [o0, o1, o2, o3] fee 0 = some l2) :
    l2 = [⟨o0.value - fee, o0.script⟩, o1, o2, o3] := by
  simp only [subtractFee, List.getElem?_cons_zero] at h
  split at h
  · exact absurd h (by simp)
  · simp only [Option.some.injEq, List.set] at h
    exact h.symm

/-! ## Claims -/

/-- C1: the claim says the count check of `verifyLockTX` accepts up to
four outputs and rejects a fifth; the source's check is
`tx.outputs.length >= 4`, so every transaction with four or more outputs
— including the four-output layout the rest of the function (and the
builder) expects — is rejected with `false` at the very first check. -/
theorem verifyLockTX_rejects_four_or_more (pkVerify : List Nat → Bool)
    (tx : Tx) (serviceAddr : Addr) (h : tx.outputs.length ≥ 4) :
    verifyLockTX pkVerify tx serviceAddr = some false := by
  unfold verifyLockTX
  rw [if_pos h]

theorem verifyLockTX_rejects_four_or_more_witness :
    verifyLockTX (fun _ => true)
      ⟨1, [], [⟨0, [.opReturn, .pushData [2, 3]]⟩,
               ⟨0, [.opReturn, .pushData [97]]⟩,
               ⟨5, addrScript (.p2pkh [5])⟩,
               ⟨7, addrScript (.p2sh [6])⟩]⟩
      (.p2pkh [5]) = some false :=
  verifyLockTX_rejects_four_or_more (fun _ => true) _ (.p2pkh [5]) (by decide)

/-- C3: the push before OP_CHECKSEQUENCEVERIFY is claimed to be the
minimal little-endian encoding with trailing zeros stripped to a 2-byte
floor, so that 0x0100 (= 256) keeps its two bytes [0x00, 0x01].  The
source's `numBuff.slice(0, min)` excludes index `min` — the last nonzero
byte found by the trimming loop — so 256 is encoded as the single byte
[0x00] and that is what the compiled script pushes. -/
theorem encodeSequenceNum_256_drops_top_byte :
    encodeSequenceNum 256 = [0] ∧ encodeSequenceNum 256 ≠ [0, 1] ∧
      makeEncumberScript [2] [3] 256 =
        [.opIf, .pushData [2], .opChecksig, .opElse, .pushData [0],
         .opCSV, .opDrop, .pushData [3], .opChecksig, .opEndif] :=
  ⟨by decide, by decide, by decide⟩

/-- C7: `makeEncumberScript` is deterministic — two calls with identical
user key, service key and relative-locktime value compile to
byte-identical scripts. -/
theorem makeEncumberScript_deterministic (u s : List Nat) (t : Nat)
    (u' s' : List Nat) (t' : Nat) (hu : u = u') (hs : s = s') (ht : t = t') :
    scriptToRaw (makeEncumberScript u s t) =
      scriptToRaw (makeEncumberScript u' s' t') := by
  subst hu; subst hs; subst ht; rfl

theorem makeEncumberScript_deterministic_witness :
    scriptToRaw (makeEncumberScript [2] [3] 5) =
      scriptToRaw (makeEncumberScript [2] [3] 5) :=
  makeEncumberScript_deterministic [2] [3] 5 [2] [3] 5 rfl rfl rfl

/-- C10: before the fee subtraction, the four output values of the lock
transaction are [total − 1 − upfrontFee − lockedFee, 1, upfrontFee,
lockedFee]: the change absorbs total minus 1 minus the two fees, the
null-data output carries exactly 1 satoshi, and the four values sum back
to the total input value. -/
theorem genLockTxOutputs_conserves_value (ringAddr : Addr) (coins : List Coin)
    (name : List Nat) (upfrontFee lockedFee : Int)
    (serviceAddr p2shAddr : Addr) :
    (genLockTxOutputs ringAddr coins name upfrontFee lockedFee serviceAddr
        p2shAddr).map Output.value =
      [totalValue coins - 1 - upfrontFee - lockedFee, 1, upfrontFee,
        lockedFee] ∧
      ((genLockTxOutputs ringAddr coins name upfrontFee lockedFee serviceAddr
          p2shAddr).map Output.value).sum = totalValue coins := by
  constructor
  · rfl
  · simp only [genLockTxOutputs, List.map_cons, List.map_nil, List.sum_cons,
      List.sum_nil]
    ring

/-- C4: output 1 of the lock transaction — the null-data output
committing to the name — carries `opRetVal = 1` satoshi, not the zero
value the claim requires; with value 1 it also fails the repository's
own `isValidOP_RETURN` zero-value test, so the built transaction could
never satisfy the verifier's output-1 check. -/
theorem genLockTx_name_output_value_one (vsize : Tx → Nat) (ringAddr : Addr)
    (coins : List Coin) (name : List Nat) (upfrontFee lockedFee : Int)
    (feeRate : Nat) (serviceAddr p2shAddr : Addr) (tx : Tx)
    (h : genLockTx vsize ringAddr coins name upfrontFee lockedFee feeRate
      serviceAddr p2shAddr = some tx) :
    tx.outputs[1]? = some ⟨1, [.opReturn, .pushData name]⟩ ∧
      isValidOP_RETURN ⟨1, [.opReturn, .pushData name]⟩ = false := by
  constructor
  · simp only [genLockTx] at h
    split at h
    · exact absurd h (by simp)
    · rename_i outs2 heq
      simp only [Option.some.injEq] at h
      subst h
      rw [subtractFee_four _ _ _ _ _ _ heq]
      rfl
  · simp [isValidOP_RETURN]

theorem genLockTx_name_output_value_one_witness :
    (⟨1, [⟨⟨[0], 0⟩, []⟩],
        [⟨94, addrScript (.p2pkh [1])⟩, ⟨1, [.opReturn, .pushData [97]]⟩,
         ⟨2, addrScript (.p2pkh [2])⟩, ⟨3, addrScript (.p2sh [3])⟩]⟩ :
        Tx).outputs[1]? = some ⟨1, [.opReturn, .pushData [97]]⟩ ∧
      isValidOP_RETURN ⟨1, [.opReturn, .pushData [97]]⟩ = false :=
  genLockTx_name_output_value_one (fun _ => 0) (.p2pkh [1]) [⟨[0], 0, 100⟩]
    [97] 2 3 0 (.p2pkh [2]) (.p2sh [3]) _ (by decide)

/-- C2 counterexample: at a concrete input, output 0 of the transaction
built by `genLockTx` is not a null-data commitment to the owner's public
key — it is the change output (a P2PKH paying the owner's address);
the null-data test is false on output 0 and true only on output 1. -/
theorem genLockTx_output0_not_nulldata_cex :
    (genLockTx (fun _ => 0) (.p2pkh [1]) [⟨[0], 0, 100⟩] [97] 2 3 0
        (.p2pkh [2]) (.p2sh [3])).map
        (fun tx => tx.outputs.map fun o => isNulldataScript o.script) =
      some [false, true, false, false] := by decide

/-- C2 amended: the lock transaction built by `genLockTx` has four
outputs in this fixed order: output 0 is the change output paying the
owner's address (the residual value, from which the network fee is
subtracted), output 1 is a null-data output committing to the name and
carrying 1 satoshi, output 2 pays the upfront fee to the service's
address, and output 3 pays the locked fee to the escrow P2SH address. -/
theorem genLockTx_layout (vsize : Tx → Nat) (ringAddr : Addr)
    (coins : List Coin) (name : List Nat) (upfrontFee lockedFee : Int)
    (feeRate : Nat) (serviceAddr p2shAddr : Addr) (tx : Tx)
    (h : genLockTx vsize ringAddr coins name upfrontFee lockedFee feeRate
      serviceAddr p2shAddr = some tx) :
    ∃ fee : Nat, tx.outputs =
      [⟨totalValue coins - 1 - upfrontFee - lockedFee - fee,
          addrScript ringAddr⟩,
       ⟨1, [.opReturn, .pushData name]⟩,
       ⟨upfrontFee, addrScript serviceAddr⟩,
       ⟨lockedFee, addrScript p2shAddr⟩] := by
  simp only [genLockTx] at h
  split at h
  · exact absurd h (by simp)
  · rename_i outs2 heq
    simp only [Option.some.injEq] at h
    subst h
    refine ⟨ceilFeeRate (vsize
      ⟨1, coins.map fun c => ⟨⟨c.txid, c.index⟩, []⟩,
        genLockTxOutputs ringAddr coins name upfrontFee lockedFee serviceAddr
          p2shAddr⟩ + coins.length * 72) feeRate, ?_⟩
    rw [subtractFee_four _ _ _ _ _ _ heq]

theorem genLockTx_layout_witness :
    ∃ fee : Nat,
      (⟨1, [⟨⟨[0], 0⟩, []⟩],
          [⟨94, addrScript (.p2pkh [1])⟩, ⟨1, [.opReturn, .pushData [97]]⟩,
           ⟨2, addrScript (.p2pkh [2])⟩, ⟨3, addrScript (.p2sh [3])⟩]⟩ :
          Tx).outputs =
        [⟨totalValue [⟨[0], 0, 100⟩] - 1 - 2 - 3 - fee,
            addrScript (.p2pkh [1])⟩,
         ⟨1, [.opReturn, .pushData [97]]⟩,
         ⟨2, addrScript (.p2pkh [2])⟩,
         ⟨3, addrScript (.p2sh [3])⟩] :=
  genLockTx_layout (fun _ => 0) (.p2pkh [1]) [⟨[0], 0, 100⟩] [97] 2 3 0
    (.p2pkh [2]) (.p2sh [3]) _ (by decide)

/-- `subtractFee` on a single-output list at index 0. -/
theorem subtractFee_one (o0 : Output) (fee : Int) (l2 : List Output)
    (h : subtractFee [o0] fee 0 = some l2) :
    l2 = [⟨o0.value - fee, o0.script⟩] := by
  simp only [subtractFee, List.getElem?_cons_zero] at h
  split at h
  · exact absurd h (by simp)
  · simp only [Option.some.injEq, List.set] at h
    exact h.symm

/-- C6: the unlock transaction spends output 3 of the lock transaction as
its sole input, pays that output's full value minus the fee to the
owner's address as its sole output, and its input script pushes, in
order: a signature under the owner's key over the final spend, the
selector value 1 choosing the immediate branch, and the serialized
redeem script. -/
theorem genUnlockTx_structure (hashTx : Tx → List Nat)
    (sign : List Output → List ScriptOp → Int → List Nat → List Nat)
    (vsize : Tx → Nat) (ringAddr : Addr) (ringPriv : List Nat) (lockTx : Tx)
    (locktime : Nat) (redeemScript : List ScriptOp) (feeRate : Nat)
    (o3 : Output) (utx : Tx) (h3 : lockTx.outputs[3]? = some o3)
    (h : genUnlockTx hashTx sign vsize ringAddr ringPriv lockTx locktime
      redeemScript feeRate = some utx) :
    ∃ fee : Nat,
      utx.outputs = [⟨o3.value - fee, addrScript ringAddr⟩] ∧
        utx.inputs = [⟨⟨hashTx lockTx, 3⟩,
          [.pushData (sign [⟨o3.value - fee, addrScript ringAddr⟩]
              redeemScript o3.value ringPriv),
           .pushInt 1, .pushData (scriptToRaw redeemScript)]⟩] := by
  simp only [genUnlockTx, h3] at h
  split at h
  · exact absurd h (by simp)
  · rename_i outs2 heq
    have houts := subtractFee_one _ _ _ heq
    subst houts
    simp only [Option.some.injEq] at h
    subst h
    exact ⟨_, rfl, rfl⟩

theorem genUnlockTx_structure_witness :
    ∃ fee : Nat,
      (⟨2, [⟨⟨[], 3⟩, [.pushData [], .pushInt 1, .pushData []]⟩],
          [⟨7, addrScript (.p2sh [])⟩]⟩ : Tx).outputs =
        [⟨(7 : Int) - fee, addrScript (.p2sh [])⟩] ∧
        (⟨2, [⟨⟨[], 3⟩, [.pushData [], .pushInt 1, .pushData []]⟩],
            [⟨7, addrScript (.p2sh [])⟩]⟩ : Tx).inputs =
          [⟨⟨[], 3⟩, [.pushData [], .pushInt 1, .pushData []]⟩] :=
  genUnlockTx_structure (fun _ => []) (fun _ _ _ _ => []) (fun _ => 0)
    (.p2sh []) [] ⟨1, [], [⟨0, []⟩, ⟨0, []⟩, ⟨0, []⟩, ⟨7, []⟩]⟩ 0 [] 0
    ⟨7, []⟩ _ (by decide) (by decide)

/-- C8: `getOutputSpent` fails with `UnknownTxid` exactly when the id is
not a known transaction id; for a known id it fails with
`UnknownOutput`, naming the index and the id, exactly when the index is
out of range for that transaction's spent-flag sequence (whose length,
by the construction invariant, is the transaction's output count);
otherwise it returns the stored boolean spent flag. -/
theorem TXList_getOutputSpent_spec (l : TXList) (id : String) (index : Nat) :
    (l.getOutputSpent id index = .error (.unknownTxid id) ↔
        l.entries.lookup id = none) ∧
      ∀ flags, l.entries.lookup id = some flags →
        ((l.getOutputSpent id index = .error (.unknownOutput index id) ↔
            flags.length ≤ index) ∧
          ∀ b, flags[index]? = some b → l.getOutputSpent id index = .ok b) := by
  cases hl : l.entries.lookup id with
  | none =>
    simp [TXList.getOutputSpent, hl]
  | some flags0 =>
    cases hi : flags0[index]? with
    | none =>
      have hilen : flags0.length ≤ index := List.getElem?_eq_none_iff.mp hi
      simp only [TXList.getOutputSpent, hl, hi]
      refine ⟨by simp, ?_⟩
      intro flags hf
      injection hf with hf
      subst hf
      refine ⟨by simp [hilen], ?_⟩
      intro b hb
      rw [hi] at hb
      cases hb
    | some b0 =>
      have hlt : index < flags0.length := by
        by_contra hc
        rw [List.getElem?_eq_none_iff.mpr (by omega)] at hi
        cases hi
      simp only [TXList.getOutputSpent, hl, hi]
      refine ⟨by simp, ?_⟩
      intro flags hf
      injection hf with hf
      subst hf
      refine ⟨⟨fun habs => absurd habs (by simp), fun hle => absurd hle (by omega)⟩, ?_⟩
      intro b hb
      rw [hi] at hb
      injection hb with hb
      rw [hb]

theorem TXList_getOutputSpent_spec_witness :
    ((TXList.mk [("a", [false, true, false])]).getOutputSpent "b" 0 =
        .error (.unknownTxid "b") ↔
      (TXList.mk [("a", [false, true, false])]).entries.lookup "b" = none) ∧
      ∀ flags,
        (TXList.mk [("a", [false, true, false])]).entries.lookup "b" =
            some flags →
          (((TXList.mk [("a", [false, true, false])]).getOutputSpent "b" 0 =
              .error (.unknownOutput 0 "b") ↔ flags.length ≤ 0) ∧
            ∀ b, flags[0]? = some b →
              (TXList.mk [("a", [false, true, false])]).getOutputSpent "b" 0 =
                .ok b) :=
  TXList_getOutputSpent_spec (TXList.mk [("a", [false, true, false])]) "b" 0

/-- C9: `verifyLockTX` can never return `true`: any transaction with
four or more outputs is rejected by the initial count check, and once
that check has passed the transaction has at most three outputs, so the
final check's access to output 3 is out of range (a thrown error,
`none`) before the `return true` branch could be reached. -/
theorem verifyLockTX_never_true (pkVerify : List Nat → Bool) (tx : Tx)
    (serviceAddr : Addr) :
    (tx.outputs.length ≥ 4 →
        verifyLockTX pkVerify tx serviceAddr = some false) ∧
      (verifyLockTX pkVerify tx serviceAddr).getD false = false := by
  constructor
  · intro h
    unfold verifyLockTX
    rw [if_pos h]
  · by_cases h : tx.outputs.length ≥ 4
    · unfold verifyLockTX
      rw [if_pos h]
      rfl
    · have h3 : tx.outputs[3]? = none := by
        rw [List.getElem?_eq_none_iff]
        omega
      unfold verifyLockTX
      rw [if_neg h, h3]
      repeat' split
      all_goals first | rfl | contradiction

end Bitname
